import Mathlib

/-!
Verification development for two importer source files of the assimp
repository: the glTF (v1) scene-graph assembler
(code/AssetLib/glTF/glTFImporter.cpp) and the ASE section parser
(code/AssetLib/ASE/ASEParser.cpp).  Each definition is a shallow embedding
of the corresponding C++ function; doc comments name the embedded source
function.  Definitions whose C++ source lives in an external header (scanner
primitives, string helpers) are modelled from the specification and say so.
-/

set_option autoImplicit false

/- ===================== glTF importer: face synthesis ===================== -/

/-- Topology modes of a glTF primitive (enum `PrimitiveMode` used by
`glTFImporter::ImportMeshes`). -/
inductive PrimitiveMode where
  | points
  | lines
  | line_loop
  | line_strip
  | triangles
  | triangle_strip
  | triangle_fan
deriving DecidableEq

/-- Embeds `SetFace(aiFace&, int a)`: a one-index face. -/
def setFace1 (a : Nat) : List Nat := [a]

/-- Embeds `SetFace(aiFace&, int a, int b)`: a two-index face. -/
def setFace2 (a b : Nat) : List Nat := [a, b]

/-- Embeds `SetFace(aiFace&, int a, int b, int c)`: a three-index face. -/
def setFace3 (a b c : Nat) : List Nat := [a, b, c]

/-- Embeds the LINE_STRIP / LINE_LOOP chain loop of
`glTFImporter::ImportMeshes`:
`for (i = 2; i < count; ++i) SetFace(faces[i-1], faces[i-2].mIndices[1], data.GetUInt(i))`.
The loop counter `i` starts at the given position and the remaining number of
iterations (`count - i` at the call site) is passed explicitly so the
recursion is structural; `faces` is the array built so far, whose last entry
is `faces[i-2]`. -/
def lineChain (d : Nat → Nat) : Nat → Nat → List (List Nat) → List (List Nat)
  | _, 0, faces => faces
  | i, n + 1, faces =>
      lineChain d (i + 1) n (faces ++ [setFace2 ((faces.getLastD []).getD 1 0) (d i)])

/-- Embeds the TRIANGLE_STRIP chain loop of `glTFImporter::ImportMeshes`:
`for (i = 3; i < count; ++i)
   SetFace(faces[i-2], faces[i-1].mIndices[1], faces[i-1].mIndices[2], data.GetUInt(i))`.
At iteration `i` the faces written so far are `faces[0..i-3]` (the prefix held
in the accumulator), so the source reads `faces[i-1]` — a slot one PAST the
face being written, still default-constructed with a null `mIndices` (and, at
the final iteration, past the end of the `new aiFace[count-2]` allocation).
Such a read has no defined result; the model looks the slot up in the written
prefix and yields `none` when it is not there, which is every iteration. -/
def triStripChain (d : Nat → Nat) : Nat → Nat → List (List Nat) → Option (List (List Nat))
  | _, 0, faces => some faces
  | i, n + 1, faces =>
      match faces[i - 1]? with
      | some ahead =>
          triStripChain d (i + 1) n (faces ++ [setFace3 (ahead.getD 1 0) (ahead.getD 2 0) (d i)])
      | none => none

/-- Embeds the TRIANGLE_FAN chain loop of `glTFImporter::ImportMeshes`:
`for (i = 3; i < count; ++i)
   SetFace(faces[i-2], faces[0].mIndices[0], faces[i-1].mIndices[2], data.GetUInt(i))`.
`faces[0]` (the head of the accumulator) is written before the loop, but
`faces[i-1]` is one slot past the face being written — uninitialized, with a
null `mIndices` (out of the allocation at the final iteration) — exactly as in
the strip loop, so the model yields `none` for that read. -/
def triFanChain (d : Nat → Nat) : Nat → Nat → List (List Nat) → Option (List (List Nat))
  | _, 0, faces => some faces
  | i, n + 1, faces =>
      match faces[i - 1]? with
      | some ahead =>
          triFanChain d (i + 1) n
            (faces ++ [setFace3 ((faces.headD []).getD 0 0) (ahead.getD 2 0) (d i)])
      | none => none

/-- Embeds the face-synthesis `switch (mode)` of `glTFImporter::ImportMeshes`.
`d i` is `data.GetUInt(i)` (the index accessor read; for the no-index branch
the same switch runs with `d` the identity) and `count` is `indices->count`.
Returns the synthesized face list and whether the truncation warning
("Some vertices were dropped") was logged; `none` when the synthesis performs
a read with no defined result — which the TRIANGLE_STRIP and TRIANGLE_FAN
chain loops do on every iteration, i.e. whenever `count >= 4` (see
`triStripChain` / `triFanChain`).  For LINE_STRIP / LINE_LOOP with `count < 2`
and TRIANGLE_STRIP / TRIANGLE_FAN with `count < 3` the C++ additionally writes
outside the allocated `faces` array, so the theorems below constrain `count`
accordingly. -/
def importPrimitiveFaces (mode : PrimitiveMode) (d : Nat → Nat) (count : Nat) :
    Option (List (List Nat) × Bool) :=
  match mode with
  | .points => some ((List.range count).map (fun i => setFace1 (d i)), false)
  | .lines =>
      let nFaces := count / 2
      some ((List.range nFaces).map (fun j => setFace2 (d (2 * j)) (d (2 * j + 1))),
        decide (nFaces * 2 ≠ count))
  | .line_loop =>
      let chain := lineChain d 2 (count - 2) [setFace2 (d 0) (d 1)]
      some (chain ++ [setFace2 ((chain.getLastD []).getD 1 0) ((chain.headD []).getD 0 0)],
        false)
  | .line_strip =>
      some (lineChain d 2 (count - 2) [setFace2 (d 0) (d 1)], false)
  | .triangles =>
      let nFaces := count / 3
      some ((List.range nFaces).map
          (fun j => setFace3 (d (3 * j)) (d (3 * j + 1)) (d (3 * j + 2))),
        decide (nFaces * 3 ≠ count))
  | .triangle_strip =>
      (triStripChain d 3 (count - 3) [setFace3 (d 0) (d 1) (d 2)]).map
        (fun faces => (faces, false))
  | .triangle_fan =>
      (triFanChain d 3 (count - 3) [setFace3 (d 0) (d 1) (d 2)]).map
        (fun faces => (faces, false))

/-- The topology-expansion table exactly as the spec states it (spec section
4.2): closed-form faces per mode, and a warning exactly for the truncating
modes on a non-multiple count. -/
def specTopologyFaces (mode : PrimitiveMode) (d : Nat → Nat) (count : Nat) :
    List (List Nat) × Bool :=
  match mode with
  | .points => ((List.range count).map (fun i => [d i]), false)
  | .lines =>
      ((List.range (count / 2)).map (fun j => [d (2 * j), d (2 * j + 1)]),
        decide (count % 2 ≠ 0))
  | .line_strip =>
      ((List.range (count - 1)).map (fun i => [d i, d (i + 1)]), false)
  | .line_loop =>
      ((List.range (count - 1)).map (fun i => [d i, d (i + 1)]) ++ [[d (count - 1), d 0]],
        false)
  | .triangles =>
      ((List.range (count / 3)).map (fun j => [d (3 * j), d (3 * j + 1), d (3 * j + 2)]),
        decide (count % 3 ≠ 0))
  | .triangle_strip =>
      ((List.range (count - 2)).map (fun i => [d i, d (i + 1), d (i + 2)]), false)
  | .triangle_fan =>
      ((List.range (count - 2)).map (fun i => [d 0, d (i + 1), d (i + 2)]), false)

/- ===================== glTF importer: mesh offsets ===================== -/

/-- Embeds the offset-recording loop of `glTFImporter::ImportMeshes`: with a
running output counter `k`, each source mesh pushes the current `k` onto
`meshOffsets` and then advances `k` by its primitive count; after the loop the
final `k` is pushed as a sentinel.  The input is the list of per-source-mesh
primitive counts. -/
def meshOffsetsAux : List Nat → Nat → List Nat
  | [], k => [k]
  | c :: rest, k => k :: meshOffsetsAux rest (k + c)

/-- The `meshOffsets` table built by `glTFImporter::ImportMeshes` (counter
starts at 0). -/
def computeMeshOffsets (primCounts : List Nat) : List Nat :=
  meshOffsetsAux primCounts 0

/-- Embeds the mesh-reference expansion of `ImportNode`: for each referenced
source-mesh index `idx`, emit every output index `j` with
`meshOffsets[idx] <= j < meshOffsets[idx + 1]`. -/
def importNodeMeshes (offsets : List Nat) (meshRefs : List Nat) : List Nat :=
  meshRefs.flatMap
    (fun idx => List.range' (offsets.getD idx 0) (offsets.getD (idx + 1) 0 - offsets.getD idx 0))

/- ===================== glTF importer: node transforms ===================== -/

/-- Modelled from the spec: the 4x4 matrix type (assimp `aiMatrix4x4`, defined
in an external header) with entries over the rationals, fields named as in the
source (row r, column c entry of row `a`/`b`/`c`/`d`). -/
structure AiMatrix4x4 where
  a1 : ℚ
  a2 : ℚ
  a3 : ℚ
  a4 : ℚ
  b1 : ℚ
  b2 : ℚ
  b3 : ℚ
  b4 : ℚ
  c1 : ℚ
  c2 : ℚ
  c3 : ℚ
  c4 : ℚ
  d1 : ℚ
  d2 : ℚ
  d3 : ℚ
  d4 : ℚ
deriving DecidableEq

/-- Modelled from the spec: the identity matrix (the default value of
`aiNode::mTransformation`). -/
def identityM4 : AiMatrix4x4 :=
  ⟨1, 0, 0, 0, 0, 1, 0, 0, 0, 0, 1, 0, 0, 0, 0, 1⟩

/-- Modelled from the spec: standard 4x4 matrix product, row `i` of the left
factor against column `j` of the right factor (assimp `aiMatrix4x4::operator*`
composed so that `matMul m n` applied to a column vector first applies `n`). -/
def matMul (m n : AiMatrix4x4) : AiMatrix4x4 where
  a1 := m.a1 * n.a1 + m.a2 * n.b1 + m.a3 * n.c1 + m.a4 * n.d1
  a2 := m.a1 * n.a2 + m.a2 * n.b2 + m.a3 * n.c2 + m.a4 * n.d2
  a3 := m.a1 * n.a3 + m.a2 * n.b3 + m.a3 * n.c3 + m.a4 * n.d3
  a4 := m.a1 * n.a4 + m.a2 * n.b4 + m.a3 * n.c4 + m.a4 * n.d4
  b1 := m.b1 * n.a1 + m.b2 * n.b1 + m.b3 * n.c1 + m.b4 * n.d1
  b2 := m.b1 * n.a2 + m.b2 * n.b2 + m.b3 * n.c2 + m.b4 * n.d2
  b3 := m.b1 * n.a3 + m.b2 * n.b3 + m.b3 * n.c3 + m.b4 * n.d3
  b4 := m.b1 * n.a4 + m.b2 * n.b4 + m.b3 * n.c4 + m.b4 * n.d4
  c1 := m.c1 * n.a1 + m.c2 * n.b1 + m.c3 * n.c1 + m.c4 * n.d1
  c2 := m.c1 * n.a2 + m.c2 * n.b2 + m.c3 * n.c2 + m.c4 * n.d2
  c3 := m.c1 * n.a3 + m.c2 * n.b3 + m.c3 * n.c3 + m.c4 * n.d3
  c4 := m.c1 * n.a4 + m.c2 * n.b4 + m.c3 * n.c4 + m.c4 * n.d4
  d1 := m.d1 * n.a1 + m.d2 * n.b1 + m.d3 * n.c1 + m.d4 * n.d1
  d2 := m.d1 * n.a2 + m.d2 * n.b2 + m.d3 * n.c2 + m.d4 * n.d2
  d3 := m.d1 * n.a3 + m.d2 * n.b3 + m.d3 * n.c3 + m.d4 * n.d3
  d4 := m.d1 * n.a4 + m.d2 * n.b4 + m.d3 * n.c4 + m.d4 * n.d4

/-- Modelled from the spec: `aiMatrix4x4::Translation(trans, t)` builds the
identity with the translation vector in the fourth column. -/
def translationM4 (x y z : ℚ) : AiMatrix4x4 :=
  ⟨1, 0, 0, x, 0, 1, 0, y, 0, 0, 1, z, 0, 0, 0, 1⟩

/-- Modelled from the spec: `aiMatrix4x4::Scaling(scal, s)` builds the diagonal
scaling matrix. -/
def scalingM4 (x y z : ℚ) : AiMatrix4x4 :=
  ⟨x, 0, 0, 0, 0, y, 0, 0, 0, 0, z, 0, 0, 0, 0, 1⟩

/-- Transform-relevant data of a source node as `ImportNode` reads it: the
optional explicit matrix, optional translation and scale vectors, and the
optional rotation already converted to its 4x4 matrix (the conversion
`aiMatrix4x4(rot.GetMatrix())` is external). -/
structure GltfNodeTransformData where
  matrix : Option AiMatrix4x4
  translation : Option (ℚ × ℚ × ℚ)
  scale : Option (ℚ × ℚ × ℚ)
  rotation : Option AiMatrix4x4

/-- Embeds the transform computation of `ImportNode`
(glTFImporter.cpp lines 542-567): `matrix` starts as the identity; an explicit
node matrix is copied verbatim; otherwise each present component premultiplies
the accumulator, translation first (`matrix = t * matrix`), then scale
(`matrix = s * matrix`), then rotation (`matrix = rot * matrix`). -/
def importNodeTransform (node : GltfNodeTransformData) : AiMatrix4x4 :=
  match node.matrix with
  | some m => m
  | none =>
      let m0 := identityM4
      let m1 := match node.translation with
        | some (x, y, z) => matMul (translationM4 x y z) m0
        | none => m0
      let m2 := match node.scale with
        | some (x, y, z) => matMul (scalingM4 x y z) m1
        | none => m1
      match node.rotation with
        | some r => matMul r m2
        | none => m2

/-- The node transform exactly as the spec words it: the explicit matrix when
present, otherwise the composition
`matrix = translation * scale * rotation * identity` with absent components
defaulting to the identity. -/
def specNodeTransform (node : GltfNodeTransformData) : AiMatrix4x4 :=
  match node.matrix with
  | some m => m
  | none =>
      let t := match node.translation with
        | some (x, y, z) => translationM4 x y z
        | none => identityM4
      let s := match node.scale with
        | some (x, y, z) => scalingM4 x y z
        | none => identityM4
      let r := match node.rotation with
        | some m => m
        | none => identityM4
      matMul (matMul (matMul t s) r) identityM4

/-- The corrected composition: rotation * scale * translation (translation is
applied to the accumulator first and each later component premultiplies), the
explicit matrix still winning and absent components defaulting to the
identity. -/
def amendedNodeTransform (node : GltfNodeTransformData) : AiMatrix4x4 :=
  match node.matrix with
  | some m => m
  | none =>
      let t := match node.translation with
        | some (x, y, z) => translationM4 x y z
        | none => identityM4
      let s := match node.scale with
        | some (x, y, z) => scalingM4 x y z
        | none => identityM4
      let r := match node.rotation with
        | some m => m
        | none => identityM4
      matMul (matMul (matMul r s) t) identityM4

/- ===================== glTF importer: embedded textures ===================== -/

/-- Embeds the slot-assignment loop of `glTFImporter::ImportEmbeddedTextures`:
walking the image list with the running `mNumTextures` counter, an image with
inline data takes the next dense slot (`idx = mNumTextures++`) while an image
without data keeps the `-1` sentinel put there by the initial `resize`. -/
def embedTexAux : List Bool → Nat → List Int
  | [], _ => []
  | hasData :: rest, numTextures =>
      if hasData then (numTextures : Int) :: embedTexAux rest (numTextures + 1)
      else (-1) :: embedTexAux rest numTextures

/-- The `embeddedTexIdxs` table of `glTFImporter::ImportEmbeddedTextures`,
indexed by source-image position (`true` = the image carries inline data). -/
def importEmbeddedTexIdxs (hasData : List Bool) : List Int :=
  embedTexAux hasData 0

/-- Embeds the texture-reference encoding of `SetMaterialColorProperty`
(glTFImporter.cpp lines 103-115): when the referenced image has an embedded
slot (`texIdx != -1`) the stored string becomes the sigil character followed by
the decimal slot index (`uri.data[0] = '*'; ASSIMP_itoa10(...)`), otherwise the
image uri is stored unchanged.  Decimal rendering (`ASSIMP_itoa10`, an external
helper) is modelled by `Nat.repr`. -/
def setMaterialTextureRef (uri : String) (texIdx : Int) : String :=
  if texIdx ≠ -1 then "*" ++ Nat.repr texIdx.toNat else uri

/- ===================== glTF importer: node tree ===================== -/

/-- Source node as `ImportNode` traverses it for tree building: its id and its
child list. -/
inductive GltfNode where
  | mk (id : String) (children : List GltfNode)

/-- Output node: name plus owned children (`aiNode`). -/
inductive AiNode where
  | mk (name : String) (children : List AiNode)

mutual

/-- Embeds the tree-building part of `ImportNode`: the output node takes the
source id and recursively imported children. -/
def importNode : GltfNode → AiNode
  | .mk id children => .mk id (importNodeList children)

/-- Embeds the child-import loop of `ImportNode` (one recursive call per child,
in order). -/
def importNodeList : List GltfNode → List AiNode
  | [] => []
  | n :: rest => importNode n :: importNodeList rest

end

/-- Embeds `glTFImporter::ImportNodes` (glTFImporter.cpp lines 599-618): no
scene leaves the root null; exactly one declared root is imported directly;
more than one declared root is wrapped under a synthesized node named ROOT;
zero declared roots also leave the root null. -/
def gltfImportNodes (scene : Option (List GltfNode)) : Option AiNode :=
  match scene with
  | none => none
  | some rootNodes =>
      if rootNodes.length = 1 then
        some (importNode (rootNodes.headD (.mk ("") [])))
      else if 1 < rootNodes.length then
        some (.mk ("ROOT") (importNodeList rootNodes))
      else none

/- ===================== glTF importer: CanRead ===================== -/

/-- Embeds `glTFImporter::CanRead` (glTFImporter.cpp lines 90-101): the
external `Asset::Load` call either throws (modelled as `Except.error`) or
returns, after which the truthiness of the loaded `asset.asset` metadata is the
result (modelled as the payload `Bool`); any exception is caught and yields
`false`. -/
def gltfCanRead (loadResult : Except String Bool) : Bool :=
  match loadResult with
  | .ok assetMetadataFlag => assetMetadataFlag
  | .error _ => false

/- ===================== ASE parser: scanning state ===================== -/

/-- Modelled from the spec: the scanner primitive for line-end detection
(assimp `IsLineEnd`, in an external header).  The spec says line-end detection
treats carriage return and line feed as line ends, the `\r\n` pair being
counted once through the carry flag kept by the callers. -/
def IsLineEnd (c : Char) : Bool :=
  c = '\r' || c = '\n'

/-- Parser state threaded through every ASE scanning routine: the remaining
input (`mFilePtr` up to the NUL terminator appended by the importer; the empty
list stands for having reached that terminator), the current line number
`iLineNumber`, and the carry flag `bLastWasEndLine`. -/
structure AseCursor where
  input : List Char
  line : Nat
  lastWasEndLine : Bool
deriving DecidableEq

/-- Embeds the shared line-counting step of the ASE handler macros and of
`Parser::SkipToNextToken`:
`if (IsLineEnd(c) && !bLastWasEndLine) { ++iLineNumber; bLastWasEndLine = true; } else bLastWasEndLine = false;`
returning the updated line number and carry flag. -/
def countLine (c : Char) (line : Nat) (lastWasEndLine : Bool) : Nat × Bool :=
  if IsLineEnd c && !lastWasEndLine then (line + 1, true) else (line, false)

/-- Embeds `Parser::SkipToNextToken` (ASEParser.cpp lines 181-204): advance
until a section-keyword marker or brace, counting lines with the carry flag;
returns false at the buffer end or at a NUL byte, leaving the cursor there. -/
def SkipToNextToken : List Char → Nat → Bool → Bool × AseCursor
  | [], line, lastWasEndLine => (false, ⟨[], line, lastWasEndLine⟩)
  | c :: rest, line, lastWasEndLine =>
      let p := countLine c line lastWasEndLine
      if c = '*' || c = '}' || c = '{' then (true, ⟨c :: rest, p.1, p.2⟩)
      else if c = '\x00' then (false, ⟨c :: rest, p.1, p.2⟩)
      else SkipToNextToken rest p.1 p.2

/-- Embeds the loop of a handler built on `AI_ASE_HANDLE_SECTION` (ASEParser.cpp
lines 93-111) with the keyword-dispatch branch elided (when no keyword of the
level matches, control falls through to exactly this housekeeping): an opening
brace raises the per-call depth; a closing brace lowers it and, reaching zero,
consumes the brace, resynchronizes via `SkipToNextToken` and returns the final
cursor; the NUL terminator raises the line-numbered fatal
`Parser::LogError` (modelled as `Except.error` carrying `iLineNumber`); every
other character is consumed with carry-flag line counting. -/
def sectionRun : List Char → Int → Nat → Bool → Except Nat AseCursor
  | [], _, line, _ => Except.error line
  | c :: rest, depth, line, lastWasEndLine =>
      if c = '{' then
        let p := countLine c line lastWasEndLine
        sectionRun rest (depth + 1) p.1 p.2
      else if c = '}' then
        if depth - 1 = 0 then Except.ok (SkipToNextToken rest line lastWasEndLine).2
        else
          let p := countLine c line lastWasEndLine
          sectionRun rest (depth - 1) p.1 p.2
      else if c = '\x00' then Except.error line
      else
        let p := countLine c line lastWasEndLine
        sectionRun rest depth p.1 p.2

/-- Embeds the loop of a handler built on `AI_ASE_HANDLE_TOP_LEVEL_SECTION`
(ASEParser.cpp lines 68-86), keyword dispatch elided as for `sectionRun`.  The
only difference from the nested macro is the end-of-input policy: the NUL
terminator (or buffer end) simply returns.  The Boolean result records which
return fired: `true` for the end-of-input return, `false` for the
closing-brace return. -/
def topLevelRun : List Char → Int → Nat → Bool → Bool × AseCursor
  | [], _, line, lastWasEndLine => (true, ⟨[], line, lastWasEndLine⟩)
  | c :: rest, depth, line, lastWasEndLine =>
      if c = '{' then
        let p := countLine c line lastWasEndLine
        topLevelRun rest (depth + 1) p.1 p.2
      else if c = '}' then
        if depth - 1 = 0 then (false, (SkipToNextToken rest line lastWasEndLine).2)
        else
          let p := countLine c line lastWasEndLine
          topLevelRun rest (depth - 1) p.1 p.2
      else if c = '\x00' then (true, ⟨c :: rest, line, lastWasEndLine⟩)
      else
        let p := countLine c line lastWasEndLine
        topLevelRun rest depth p.1 p.2

/-- Housekeeping loop of `Parser::ParseLV1ObjectBlock` (ASEParser.cpp lines
806-889): despite sitting one level below the file scope, this handler closes
its loop with `AI_ASE_HANDLE_TOP_LEVEL_SECTION`, so end-of-input returns
cleanly here.  `Parser::ParseLV1SceneBlock` and
`Parser::ParseLV1MaterialListBlock` use the same macro. -/
def ParseLV1ObjectBlockRun : List Char → Int → Nat → Bool → Bool × AseCursor :=
  topLevelRun

/-- Housekeeping loop of `Parser::ParseLV2MeshBlock` (and of every other
LV2/LV3/LV4 handler): these close their loops with `AI_ASE_HANDLE_SECTION`, so
end-of-input is the line-numbered fatal error. -/
def ParseLV2MeshBlockRun : List Char → Int → Nat → Bool → Except Nat AseCursor :=
  sectionRun

/-- Embeds `Parser::SkipSection` (ASEParser.cpp lines 207-228): advance while
tracking brace nesting in `iCnt`; the matching close consumes the brace,
resynchronizes via `SkipToNextToken` and returns true; a NUL byte (or buffer
end) warns and returns false.  Line ends increment `iLineNumber` directly,
WITHOUT consulting or setting the `bLastWasEndLine` carry flag — the flag is
passed through untouched, exactly as in the source. -/
def SkipSection : List Char → Int → Nat → Bool → Bool × AseCursor
  | [], _, line, lastWasEndLine => (false, ⟨[], line, lastWasEndLine⟩)
  | c :: rest, iCnt, line, lastWasEndLine =>
      if c = '}' then
        if iCnt - 1 = 0 then (true, (SkipToNextToken rest line lastWasEndLine).2)
        else SkipSection rest (iCnt - 1) line lastWasEndLine
      else if c = '{' then SkipSection rest (iCnt + 1) line lastWasEndLine
      else if c = '\x00' then (false, ⟨c :: rest, line, lastWasEndLine⟩)
      else SkipSection rest iCnt (if IsLineEnd c then line + 1 else line) lastWasEndLine

/- ===================== ASE parser: scanner primitives ===================== -/

/-- Modelled from the spec: the scanner primitive `read_unsigned_int`
(`strtoul10` of an external header): consume a maximal run of decimal digits
accumulating the value, leaving the cursor on the first non-digit; a run of
zero digits yields the accumulator unchanged (zero at every call site). -/
def strtoul10 : List Char → Nat → Nat × List Char
  | [], acc => (acc, [])
  | c :: rest, acc =>
      if '0' ≤ c ∧ c ≤ '9' then strtoul10 rest (acc * 10 + (c.toNat - Char.toNat '0'))
      else (acc, c :: rest)

/-- Modelled from the spec: the scanner primitive `skip_spaces`: advance over
spaces and tabs; the Boolean is false exactly when a line end or the end of
input follows. -/
def SkipSpaces : List Char → Bool × List Char
  | [] => (false, [])
  | c :: rest =>
      if c = ' ' ∨ c = '\t' then SkipSpaces rest
      else (!(IsLineEnd c || c = '\x00'), c :: rest)

/- ===================== ASE parser: smoothing groups ===================== -/

/-- Embeds the smoothing-group loop of `Parser::ParseLV4MeshFace`
(ASEParser.cpp lines 1789-1807), entered after `*MESH_SMOOTHING` and the first
`SkipSpaces`.  Each iteration: when the next character is a digit passing the
source test `c >= '0' && c < '9'` (note: this excludes the digit 9), the value
is read with `strtoul10`; a value below 32 ORs `1 << strtoul10(mFilePtr, ...)`
into the mask — the shift amount is parsed by a SECOND `strtoul10` call from
the text just after the digits of the value, exactly as in the source; a value
of 32 or more logs a warning.  Then spaces are skipped and the loop continues
only past a comma.  State is `(iSmoothGroup mask, warning count, cursor)`; the
fuel is the input length, which bounds the iteration count since every
continuing iteration consumes at least the comma. -/
def smoothGroupLoop : Nat → List Char → Nat → Nat → Nat × Nat × List Char
  | 0, cs, mask, warns => (mask, warns, cs)
  | fuel + 1, cs, mask, warns =>
      let step :=
        if '0' ≤ cs.headD '\x00' ∧ cs.headD '\x00' < '9' then
          let pv := strtoul10 cs 0
          if pv.1 < 32 then
            let pb := strtoul10 pv.2 0
            (mask ||| (1 <<< pb.1), warns, pb.2)
          else (mask, warns + 1, pv.2)
        else (mask, warns, cs)
      let sp := SkipSpaces step.2.2
      if sp.2.headD '\x00' = ',' then
        let sp2 := SkipSpaces sp.2.tail
        smoothGroupLoop fuel sp2.2 step.1 step.2.1
      else (step.1, step.2.1, sp.2)

/-- The smoothing-group list parse of `Parser::ParseLV4MeshFace` acting on the
face mask, starting with no warnings. -/
def ParseSmoothingGroups (cs : List Char) (mask : Nat) : Nat × Nat × List Char :=
  smoothGroupLoop (cs.length + 1) cs mask 0

/- ===================== ASE parser: index-addressed assignment ===================== -/

/-- A parsed 3-vector (`aiVector3D` over the rationals). -/
abbrev V3 := ℚ × ℚ × ℚ

/-- A parsed color (`aiColor4D` over the rationals). -/
abbrev Color4 := ℚ × ℚ × ℚ × ℚ

/-- The ASE face record as `Parser::ParseLV4MeshFace` fills it (`ASE::Face`):
its own array index, the three vertex indices, the smoothing-group mask and
the material-slot override. -/
structure AseFace where
  iFace : Nat
  mIndices : Nat × Nat × Nat
  iSmoothGroup : Nat
  iMaterial : Nat
deriving DecidableEq

/-- A bone-weight pair `(bone index, weight)` as pushed by
`Parser::ParseLV4MeshBonesVertices` (the index is signed: -1 marks unused
entries, which the source skips). -/
abbrev BoneWeight := Int × ℚ

/-- Embeds the `*MESH_VERTEX` entry of `Parser::ParseLV3MeshVertexListBlock`
(ASEParser.cpp lines 1455-1465): the block pre-sizes `mesh.mPositions` to the
declared `iNumVertices`; an entry with `iIndex >= iNumVertices` logs one
warning and is dropped, otherwise `mesh.mPositions[iIndex] = vTemp`.  Returns
the array and the number of warnings logged. -/
def ParseMeshVertexAssign (iNumVertices : Nat) (mPositions : List V3)
    (iIndex : Nat) (vTemp : V3) : List V3 × Nat :=
  if iNumVertices ≤ iIndex then (mPositions, 1) else (mPositions.set iIndex vTemp, 0)

/-- Embeds the `*MESH_FACE` entry of `Parser::ParseLV3MeshFaceListBlock`
(ASEParser.cpp lines 1482-1491): the block pre-sizes `mesh.mFaces` to the
declared `iNumFaces`; a face whose own `iFace` index is out of bounds logs one
warning and is dropped, otherwise `mesh.mFaces[mFace.iFace] = mFace`. -/
def ParseMeshFaceAssign (iNumFaces : Nat) (mFaces : List AseFace)
    (mFace : AseFace) : List AseFace × Nat :=
  if iNumFaces ≤ mFace.iFace then (mFaces, 1) else (mFaces.set mFace.iFace mFace, 0)

/-- Embeds the `*MESH_TVERT` entry of `Parser::ParseLV3MeshTListBlock`
(ASEParser.cpp lines 1509-1523) restricted to the texture-coordinate array of
the channel being parsed (pre-sized to the declared `iNumVertices`): an
out-of-bounds index logs one warning and is dropped, otherwise
`mesh.amTexCoords[iChannel][iIndex] = vTemp`. -/
def ParseMeshTVertAssign (iNumVertices : Nat) (texCoords : List V3)
    (iIndex : Nat) (vTemp : V3) : List V3 × Nat :=
  if iNumVertices ≤ iIndex then (texCoords, 1) else (texCoords.set iIndex vTemp, 0)

/-- Embeds the `*MESH_VERTCOL` entry of `Parser::ParseLV3MeshCListBlock`
(ASEParser.cpp lines 1602-1612): the block pre-sizes `mesh.mVertexColors`; an
out-of-bounds index logs one warning and is dropped, otherwise
`mesh.mVertexColors[iIndex] = vTemp`. -/
def ParseMeshCVertAssign (iNumVertices : Nat) (mVertexColors : List Color4)
    (iIndex : Nat) (vTemp : Color4) : List Color4 × Nat :=
  if iNumVertices ≤ iIndex then (mVertexColors, 1) else (mVertexColors.set iIndex vTemp, 0)

/-- Embeds the `*MESH_BONE_VERTEX` entry of `Parser::ParseLV4MeshBonesVertices`
(ASEParser.cpp lines 1406-1437): `mesh.mBoneVertices` is pre-sized to the
declared vertex count; on an empty array the source skips the enclosing
section (the code after the skip would then index the empty vector out of
bounds, which has no defined result, so the model stops there); an
out-of-bounds `iIndex` logs ONE warning and is then CLAMPED to the largest
valid index (`iIndex = mBoneVertices.size() - 1`); the parsed `(bone, weight)`
pairs whose bone index is not -1 are appended to the slot at the (possibly
clamped) index. -/
def ParseMeshBoneVertexAssign (mBoneVertices : List (List BoneWeight))
    (iIndex : Nat) (pairs : List BoneWeight) : List (List BoneWeight) × Nat :=
  if mBoneVertices.isEmpty then (mBoneVertices, 0)
  else
    let idx := if mBoneVertices.length ≤ iIndex then mBoneVertices.length - 1 else iIndex
    let warns := if mBoneVertices.length ≤ iIndex then 1 else 0
    (mBoneVertices.set idx
        ((mBoneVertices.getD idx []) ++ pairs.filter (fun p => p.1 ≠ -1)),
      warns)

/- ===================== Helper lemmas ===================== -/

/- ===================== Claim C1 ===================== -/

/-- C1 (code bug): face synthesis follows the topology-expansion table of the
spec for points, lines and triangles at every index accessor and count, and
for the line modes at the concrete instances the claim names — line-loop over
[0,1,2] yields (0,1),(1,2),(2,0) and lines over [0,1,2] yields the single face
(0,1) with the truncation warning.  But the TRIANGLE_STRIP and TRIANGLE_FAN
chain loops read `faces[i-1]` — one slot AHEAD of the face being written,
never yet initialized (null `mIndices`; past the allocation at the last
iteration) — instead of the previously written face the table requires, so
for any strip/fan with `count >= 4` the synthesis has no defined result
(`none`): in particular the claim instance triangle-fan over [0,1,2,3,4] does
NOT yield (0,1,2),(0,2,3),(0,3,4).  Only the degenerate `count = 3` strip/fan,
whose loop body never runs, is defined and matches the table. -/
theorem gltf_topology_expansion_code_bug (d : Nat → Nat) (count : Nat) :
    importPrimitiveFaces .points d count = some (specTopologyFaces .points d count) ∧
    importPrimitiveFaces .lines d count = some (specTopologyFaces .lines d count) ∧
    importPrimitiveFaces .triangles d count = some (specTopologyFaces .triangles d count) ∧
    importPrimitiveFaces .line_loop (fun i => [0, 1, 2].getD i 0) 3 =
        some ([[0, 1], [1, 2], [2, 0]], false) ∧
    importPrimitiveFaces .lines (fun i => [0, 1, 2].getD i 0) 3 = some ([[0, 1]], true) ∧
    importPrimitiveFaces .triangle_fan (fun i => [0, 1, 2, 3, 4].getD i 0) 5 = none ∧
    importPrimitiveFaces .triangle_strip (fun i => [0, 1, 2, 3, 4].getD i 0) 5 = none ∧
    importPrimitiveFaces .triangle_fan (fun i => [0, 1, 2].getD i 0) 3 =
        some ([[0, 1, 2]], false) := by
  refine ⟨rfl, ?_, ?_, by decide, by decide, by decide, by decide, by decide⟩
  · simp only [importPrimitiveFaces, specTopologyFaces, setFace2]
    refine congrArg _ (congrArg₂ Prod.mk rfl ?_)
    rw [decide_eq_decide]
    omega
  · simp only [importPrimitiveFaces, specTopologyFaces, setFace3]
    refine congrArg _ (congrArg₂ Prod.mk rfl ?_)
    rw [decide_eq_decide]
    omega

/- ===================== Claim C4 ===================== -/

theorem meshOffsetsAux_length (l : List Nat) : ∀ k, (meshOffsetsAux l k).length = l.length + 1 := by
  induction l with
  | nil => intro k; rfl
  | cons c rest ih => intro k; simp [meshOffsetsAux, ih]

theorem meshOffsetsAux_getD (l : List Nat) :
    ∀ k i, i ≤ l.length → (meshOffsetsAux l k).getD i 0 = k + (l.take i).sum := by
  induction l with
  | nil =>
      intro k i hi
      have h0 : i = 0 := Nat.le_zero.mp hi
      subst h0
      simp [meshOffsetsAux]
  | cons c rest ih =>
      intro k i hi
      match i with
      | 0 => simp [meshOffsetsAux]
      | j + 1 =>
          have hj : j ≤ rest.length := by simpa using hi
          simp only [meshOffsetsAux, List.getD_cons_succ, List.take_succ_cons, List.sum_cons]
          rw [ih (k + c) j hj]
          omega

theorem meshOffsetsAux_getLastD (l : List Nat) :
    ∀ k dflt, (meshOffsetsAux l k).getLastD dflt = k + l.sum := by
  induction l with
  | nil => intro k dflt; simp [meshOffsetsAux]
  | cons c rest ih =>
      intro k dflt
      simp only [meshOffsetsAux, List.sum_cons]
      rw [List.getLastD_cons, ih (k + c) k]
      omega

theorem take_succ_sum (l : List Nat) :
    ∀ i, i < l.length → (l.take (i + 1)).sum = (l.take i).sum + l.getD i 0 := by
  induction l with
  | nil => intro i hi; simp at hi
  | cons c rest ih =>
      intro i hi
      match i with
      | 0 => simp
      | j + 1 =>
          have hj : j < rest.length := by simpa using hi
          simp only [List.take_succ_cons, List.sum_cons, List.getD_cons_succ]
          rw [ih j hj]
          omega

/-- C4: the assembler records, for each source mesh in order, the running
output-mesh counter as that mesh's base offset (equal to the sum of the
primitive counts of the earlier meshes), appends one output mesh per primitive
(so the table has one entry per source mesh plus one), appends one final
sentinel offset equal to the total output-mesh count, and a node referencing
source mesh `i` receives exactly the contiguous output indices
`[offset[i], offset[i+1])`. -/
theorem gltf_mesh_offsets_spec (primCounts : List Nat) (i : Nat) :
    (computeMeshOffsets primCounts).length = primCounts.length + 1 ∧
    (i ≤ primCounts.length →
      (computeMeshOffsets primCounts).getD i 0 = (primCounts.take i).sum) ∧
    (computeMeshOffsets primCounts).getLastD 0 = primCounts.sum ∧
    (i < primCounts.length →
      importNodeMeshes (computeMeshOffsets primCounts) [i] =
        List.range' ((primCounts.take i).sum) (primCounts.getD i 0)) := by
  refine ⟨meshOffsetsAux_length primCounts 0, ?_, ?_, ?_⟩
  · intro hi
    rw [computeMeshOffsets, meshOffsetsAux_getD primCounts 0 i hi, Nat.zero_add]
  · rw [computeMeshOffsets, meshOffsetsAux_getLastD primCounts 0 0, Nat.zero_add]
  · intro hi
    have hlow : (computeMeshOffsets primCounts).getD i 0 = (primCounts.take i).sum := by
      rw [computeMeshOffsets, meshOffsetsAux_getD primCounts 0 i (Nat.le_of_lt hi), Nat.zero_add]
    have hhigh : (computeMeshOffsets primCounts).getD (i + 1) 0 =
        (primCounts.take i).sum + primCounts.getD i 0 := by
      rw [computeMeshOffsets, meshOffsetsAux_getD primCounts 0 (i + 1) hi, Nat.zero_add]
      exact take_succ_sum primCounts i hi
    simp only [importNodeMeshes, List.flatMap_cons, List.flatMap_nil, List.append_nil]
    rw [hlow, hhigh, Nat.add_sub_cancel_left]

/-- Witness for C4: the concrete instance of the claim (a source mesh with 3
primitives starting at output offset 5 yields node mesh indices 5,6,7). -/
theorem gltf_mesh_offsets_spec_witness :
    2 < ([3, 2, 3] : List Nat).length ∧
    ([3, 2, 3].take 2).sum = 5 ∧
    importNodeMeshes (computeMeshOffsets [3, 2, 3]) [2] = [5, 6, 7] := by
  refine ⟨by decide, by decide, ?_⟩
  exact ((gltf_mesh_offsets_spec [3, 2, 3] 2).2.2.2 (by decide)).trans (by decide)

/- ===================== Claim C5 ===================== -/

theorem matMul_identity_right (m : AiMatrix4x4) : matMul m identityM4 = m := by
  cases m
  simp [matMul, identityM4]

theorem matMul_identity_left (m : AiMatrix4x4) : matMul identityM4 m = m := by
  cases m
  simp [matMul, identityM4]

theorem matMul_assoc (x y z : AiMatrix4x4) : matMul (matMul x y) z = matMul x (matMul y z) := by
  cases x
  cases y
  cases z
  simp only [matMul, AiMatrix4x4.mk.injEq]
  refine ⟨?_, ?_, ?_, ?_, ?_, ?_, ?_, ?_, ?_, ?_, ?_, ?_, ?_, ?_, ?_, ?_⟩ <;> ring

/-- Counterexample for C5: a node with a translation by (1,0,0) and a uniform
scale by 2 (no rotation, no explicit matrix).  The code composes the scale
AFTER the translation (`matrix = s * (t * identity)`), whereas the claimed
formula `translation * scale * rotation * identity` puts the translation
outermost; the two matrices differ in the fourth-column entry (2 versus 1). -/
theorem gltf_node_transform_order_counterexample :
    importNodeTransform ⟨none, some (1, 0, 0), some (2, 2, 2), none⟩ ≠
      specNodeTransform ⟨none, some (1, 0, 0), some (2, 2, 2), none⟩ := by
  intro h
  have h4 := congrArg AiMatrix4x4.a4 h
  norm_num [importNodeTransform, specNodeTransform, matMul, identityM4, translationM4,
    scalingM4] at h4

/-- C5 (amended): the output transform equals the explicit matrix when one is
present, ignoring the components; otherwise it equals the composition
rotation * scale * translation * identity (the code premultiplies the
accumulator with translation first, then scale, then rotation), absent
components defaulting to the identity. -/
theorem gltf_node_transform_amended (node : GltfNodeTransformData) :
    importNodeTransform node = amendedNodeTransform node ∧
    (∀ m, node.matrix = some m → importNodeTransform node = m) := by
  obtain ⟨mat, tr, sc, rot⟩ := node
  constructor
  · cases mat with
    | some m => rfl
    | none =>
        rcases tr with _ | ⟨x, y, z⟩ <;> rcases sc with _ | ⟨sx, sy, sz⟩ <;>
          rcases rot with _ | r <;>
          simp [importNodeTransform, amendedNodeTransform, matMul_identity_right,
            matMul_identity_left, matMul_assoc]
  · intro m hm
    simp only at hm
    subst hm
    rfl

/-- Witness for C5: the explicit-matrix branch applied at a concrete node, and
the amended composition at the counterexample node. -/
theorem gltf_node_transform_amended_witness :
    importNodeTransform ⟨some identityM4, some (1, 0, 0), some (2, 2, 2), none⟩ = identityM4 ∧
    importNodeTransform ⟨none, some (1, 0, 0), some (2, 2, 2), none⟩ =
      amendedNodeTransform ⟨none, some (1, 0, 0), some (2, 2, 2), none⟩ :=
  ⟨(gltf_node_transform_amended _).2 identityM4 rfl, (gltf_node_transform_amended _).1⟩

/- ===================== Claim C8 ===================== -/

theorem embedTexAux_getD (l : List Bool) :
    ∀ k i, i < l.length →
      (embedTexAux l k).getD i (-1) =
        (if l.getD i false then (k : Int) + (((l.take i).count true : Nat) : Int) else -1) := by
  induction l with
  | nil => intro k i hi; simp at hi
  | cons b rest ih =>
      intro k i hi
      match i with
      | 0 => cases b <;> simp [embedTexAux]
      | j + 1 =>
          have hj : j < rest.length := by simpa using hi
          cases b with
          | false =>
              have h := ih k j hj
              show (((-1) : Int) :: embedTexAux rest k).getD (j + 1) (-1) = _
              simp only [List.getD_cons_succ]
              rw [h]
              by_cases hb : rest.getD j false = true
              · rw [if_pos hb, if_pos hb]
                simp [List.take_succ_cons, List.count_cons]
              · rw [if_neg hb, if_neg hb]
          | true =>
              have h := ih (k + 1) j hj
              show ((k : Int) :: embedTexAux rest (k + 1)).getD (j + 1) (-1) = _
              simp only [List.getD_cons_succ]
              rw [h]
              by_cases hb : rest.getD j false = true
              · rw [if_pos hb, if_pos hb]
                simp only [List.take_succ_cons, List.count_cons, beq_self_eq_true, if_true]
                push_cast
                ring
              · rw [if_neg hb, if_neg hb]

/-- C8: an image carrying embedded data receives the dense embedded-texture
slot equal to the number of data-carrying images before it (slots assigned in
image order), an image without data keeps the -1 not-embedded sentinel, and a
material channel referencing an image with slot `n` stores the reserved sigil
character followed by the decimal slot index instead of the uri, while the -1
sentinel keeps the uri path. -/
theorem gltf_embedded_texture_refs (hasData : List Bool) (i n : Nat) (uri : String) :
    (i < hasData.length → hasData.getD i false = true →
      (importEmbeddedTexIdxs hasData).getD i (-1) = (((hasData.take i).count true : Nat) : Int)) ∧
    (i < hasData.length → hasData.getD i false = false →
      (importEmbeddedTexIdxs hasData).getD i (-1) = -1) ∧
    setMaterialTextureRef uri ((n : Nat) : Int) = "*" ++ Nat.repr n ∧
    setMaterialTextureRef uri (-1) = uri := by
  refine ⟨?_, ?_, ?_, ?_⟩
  · intro hi hb
    rw [importEmbeddedTexIdxs, embedTexAux_getD hasData 0 i hi, hb]
    simp
  · intro hi hb
    rw [importEmbeddedTexIdxs, embedTexAux_getD hasData 0 i hi, hb]
    simp
  · rw [setMaterialTextureRef, if_pos (by omega)]
    simp
  · rw [setMaterialTextureRef, if_neg (by omega)]

/-- Witness for C8: with three data-carrying images the third gets slot 2, and
a material referencing slot 2 stores the sigil string. -/
theorem gltf_embedded_texture_refs_witness :
    (importEmbeddedTexIdxs [true, true, true]).getD 2 (-1) = 2 ∧
    setMaterialTextureRef ("image.png") 2 = "*2" := by
  constructor
  · exact ((gltf_embedded_texture_refs [true, true, true] 2 0 ("x")).1 (by decide)
      (by decide)).trans (by decide)
  · exact ((gltf_embedded_texture_refs [true, true, true] 2 2 ("image.png")).2.2.1).trans
      (by decide)

/- ===================== Claim C9 ===================== -/

/-- Counterexample for C9: with a scene present but zero declared root nodes,
`glTFImporter::ImportNodes` takes neither the single-root nor the
multiple-root branch, so `mScene->mRootNode` stays null — the output scene
graph has NO tree root, contradicting the claim that it always has exactly
one. -/
theorem gltf_zero_roots_no_root :
    (gltfImportNodes (some [])).isSome = false := by
  rfl

/-- C9 (amended): after node import, the scene graph has exactly one tree root
whenever at least one root node is declared — the sole declared root when
exactly one is declared, otherwise a synthesized node named ROOT owning every
declared root as a child, in order; with zero declared roots (or no scene) no
root node is produced at all. -/
theorem gltf_single_root_amended (roots : List GltfNode) :
    (roots.length = 1 →
      gltfImportNodes (some roots) = some (importNode (roots.headD (.mk ("") [])))) ∧
    (1 < roots.length →
      gltfImportNodes (some roots) = some (.mk ("ROOT") (importNodeList roots))) ∧
    (roots = [] → gltfImportNodes (some roots) = none) ∧
    gltfImportNodes none = none := by
  refine ⟨?_, ?_, ?_, rfl⟩
  · intro h1
    simp [gltfImportNodes, h1]
  · intro hgt
    have hne : roots.length ≠ 1 := by omega
    simp [gltfImportNodes, hne, hgt]
  · intro hnil
    subst hnil
    rfl

/-- Witness for C9: two declared roots are wrapped under the synthesized ROOT
node. -/
theorem gltf_single_root_amended_witness :
    gltfImportNodes (some [GltfNode.mk ("a") [], GltfNode.mk ("b") []]) =
      some (AiNode.mk ("ROOT") [AiNode.mk ("a") [], AiNode.mk ("b") []]) :=
  ((gltf_single_root_amended [GltfNode.mk ("a") [], GltfNode.mk ("b") []]).2.1
    (by decide)).trans rfl

/- ===================== Claim C10 ===================== -/

/-- C10: the format-recognition check never propagates an exception (the model
is a total function on the outcome of the load): it returns true exactly when
the asset loads successfully with a truthy asset-metadata record, and any
exception raised during loading yields false. -/
theorem gltf_canRead_no_exception (r : Except String Bool) :
    (gltfCanRead r = true ↔ r = Except.ok true) ∧
    (∀ e, gltfCanRead (Except.error e) = false) ∧
    (∀ flag, gltfCanRead (Except.ok flag) = flag) := by
  refine ⟨?_, fun e => rfl, fun flag => rfl⟩
  cases r with
  | ok flag =>
      cases flag with
      | true => simp [gltfCanRead]
      | false => simp [gltfCanRead]
  | error e => simp [gltfCanRead]

/- ===================== Claim C2 ===================== -/

/-- Counterexample for C2: the claim includes the level-1 object handler
(`Parser::ParseLV1ObjectBlock`) among the handlers that abort with a fatal
error at end-of-input, but that handler (like the level-1 scene and
material-list handlers) closes its loop with `AI_ASE_HANDLE_TOP_LEVEL_SECTION`:
on the input consisting of an opening brace followed by end-of-input it
returns cleanly through the end-of-input path (flag true) with no error, while
the nested-section housekeeping on the same input raises the line-numbered
fatal error. -/
theorem ase_lv1_object_block_eof_not_fatal :
    ParseLV1ObjectBlockRun ['{', 'a'] 0 0 false = (true, ⟨[], 0, false⟩) ∧
    sectionRun ['{', 'a'] 0 0 false = Except.error 0 := by
  exact ⟨rfl, rfl⟩

/-- C2 (amended): a handler built on the nested-section housekeeping
(`AI_ASE_HANDLE_SECTION`: the material, map, camera-settings, light-settings,
node-transform, animation, mesh and mesh sub-block handlers) aborts the import
with a fatal error carrying the current line number exactly when the
corresponding run reaches end-of-input before its matching closing brace,
while a handler built on the top-level housekeeping
(`AI_ASE_HANDLE_TOP_LEVEL_SECTION`: the outer parse loop and also the level-1
scene, material-list and object handlers) ends cleanly there; on inputs whose
section closes properly both return identically. -/
theorem ase_nested_vs_toplevel_eof (cs : List Char) :
    ∀ depth line lastWasEndLine,
      ((topLevelRun cs depth line lastWasEndLine).1 = true →
        sectionRun cs depth line lastWasEndLine =
          Except.error (topLevelRun cs depth line lastWasEndLine).2.line) ∧
      ((topLevelRun cs depth line lastWasEndLine).1 = false →
        sectionRun cs depth line lastWasEndLine =
          Except.ok (topLevelRun cs depth line lastWasEndLine).2) := by
  induction cs with
  | nil =>
      intro depth line lastWasEndLine
      exact ⟨fun _ => rfl, fun h => Bool.noConfusion h⟩
  | cons c rest ih =>
      intro depth line lastWasEndLine
      simp only [sectionRun, topLevelRun]
      split_ifs with h1 h2 h3 h4
      · exact ih (depth + 1) (countLine c line lastWasEndLine).1 (countLine c line lastWasEndLine).2
      · exact ⟨fun h => h.elim, fun _ => rfl⟩
      · exact ih (depth - 1) (countLine c line lastWasEndLine).1 (countLine c line lastWasEndLine).2
      · exact ⟨fun _ => rfl, fun h => h.elim⟩
      · exact ih depth (countLine c line lastWasEndLine).1 (countLine c line lastWasEndLine).2

/-- Witness for C2: a nested section opened by a brace and hitting end-of-input
aborts with the fatal error carrying line 0, through the general theorem. -/
theorem ase_nested_vs_toplevel_eof_witness :
    sectionRun ['{', 'a'] 0 0 false =
        Except.error ((topLevelRun ['{', 'a'] 0 0 false).2.line) ∧
    (topLevelRun ['{', 'a'] 0 0 false).2.line = 0 :=
  ⟨(ase_nested_vs_toplevel_eof ['{', 'a'] 0 0 false).1 (by rfl), by rfl⟩

/- ===================== Claim C6 ===================== -/

/-- C6 (code bug): the per-character section scanning (the handler macros) and
`Parser::SkipToNextToken` count a carriage-return+line-feed pair once via the
`bLastWasEndLine` carry flag, but `Parser::SkipSection` increments the line
counter WITHOUT the carry flag, so one `\r\n` pair inside a skipped section
advances the counter by 2: skipping the section `{` `\r` `\n` `}` ends at line
2, while the nested-section housekeeping and `SkipToNextToken` over the same
pair each end at line 1. -/
theorem ase_skipSection_counts_crlf_twice :
    SkipSection ['{', '\r', '\n', '}'] 0 0 false = (true, ⟨[], 2, false⟩) ∧
    (SkipToNextToken ['\r', '\n', '*'] 0 false).2.line = 1 ∧
    sectionRun ['\r', '\n', '}'] 1 0 false = Except.ok ⟨[], 1, false⟩ := by
  exact ⟨rfl, rfl, rfl⟩

/- ===================== Claim C7 ===================== -/

/-- C7 (code bug): in the smoothing-group list of `Parser::ParseLV4MeshFace`,
a value v with v < 32 does NOT set bit v: the shift amount is re-parsed by a
second `strtoul10` call starting after the digits of v, which reads 0 there,
so the code sets bit 0 — parsing the single value 4 yields mask 1, not 2^4;
moreover the digit test `c < '9'` excludes values starting with the digit 9,
so the single value 9 is dropped silently with mask 0 and no warning.  The
claim is right about values of 32 or more: the value 35 produces exactly one
warning and leaves the mask unchanged. -/
theorem ase_smoothing_group_bit_misparsed :
    (ParseSmoothingGroups ['4'] 0).1 = 1 ∧
    (1 : Nat) ≠ 2 ^ 4 ∧
    ParseSmoothingGroups ['9'] 0 = (0, 0, ['9']) ∧
    ParseSmoothingGroups ['3', '5'] 0 = (0, 1, []) := by
  exact ⟨rfl, by decide, rfl, rfl⟩

/- ===================== Claim C3 ===================== -/

/-- Counterexample for C3: the claim says an out-of-bounds index-addressed
write is dropped, leaving the array entirely unchanged, for bone vertices too;
but `Parser::ParseLV4MeshBonesVertices` CLAMPS the out-of-bounds index to the
largest valid one and writes there: with two (empty) bone-vertex slots, a
declaration at index 5 appends its weight pair to slot 1, changing the
array. -/
theorem ase_bone_vertex_oob_not_dropped :
    (ParseMeshBoneVertexAssign [[], []] 5 [((0 : Int), (1 : ℚ))]).1 ≠ [[], []] := by
  decide

/-- C3 (amended): for the vertex-position, face, texture-vertex and
vertex-color blocks, writing at an in-bounds index stores the element at
exactly that slot and changes no other slot (and never changes the length),
with no warning, while an out-of-bounds index produces exactly one warning and
leaves the array unchanged; for the bone-vertex block an in-bounds index
appends the (filtered) weight pairs at that slot with no warning, but an
out-of-bounds index produces one warning and is clamped to the largest valid
index, appending there instead of being dropped. -/
theorem ase_indexed_assignment_spec (n i j : Nat) (l : List V3) (v : V3)
    (faces : List AseFace) (f : AseFace) (cl : List Color4) (cv : Color4)
    (bv : List (List BoneWeight)) (ws : List BoneWeight) :
    (i < n → ParseMeshVertexAssign n l i v = (l.set i v, 0)) ∧
    (i < l.length → (l.set i v).getD i (0, 0, 0) = v) ∧
    (j ≠ i → (l.set i v).getD j (0, 0, 0) = l.getD j (0, 0, 0)) ∧
    (l.set i v).length = l.length ∧
    (n ≤ i → ParseMeshVertexAssign n l i v = (l, 1)) ∧
    (f.iFace < n → ParseMeshFaceAssign n faces f = (faces.set f.iFace f, 0)) ∧
    (n ≤ f.iFace → ParseMeshFaceAssign n faces f = (faces, 1)) ∧
    (i < n → ParseMeshTVertAssign n l i v = (l.set i v, 0)) ∧
    (n ≤ i → ParseMeshTVertAssign n l i v = (l, 1)) ∧
    (i < n → ParseMeshCVertAssign n cl i cv = (cl.set i cv, 0)) ∧
    (n ≤ i → ParseMeshCVertAssign n cl i cv = (cl, 1)) ∧
    (bv ≠ [] → i < bv.length →
      ParseMeshBoneVertexAssign bv i ws =
        (bv.set i ((bv.getD i []) ++ ws.filter (fun p => p.1 ≠ -1)), 0)) ∧
    (bv ≠ [] → bv.length ≤ i →
      ParseMeshBoneVertexAssign bv i ws =
        (bv.set (bv.length - 1)
            ((bv.getD (bv.length - 1) []) ++ ws.filter (fun p => p.1 ≠ -1)), 1)) := by
  refine ⟨?_, ?_, ?_, List.length_set l i v, ?_, ?_, ?_, ?_, ?_, ?_, ?_, ?_, ?_⟩
  · intro h
    rw [ParseMeshVertexAssign, if_neg (by omega)]
  · intro h
    simp [List.getD_eq_getElem?_getD, List.getElem?_set_eq_of_lt, h]
  · intro hne
    simp [List.getD_eq_getElem?_getD, List.getElem?_set_ne (Ne.symm hne)]
  · intro h
    rw [ParseMeshVertexAssign, if_pos h]
  · intro h
    rw [ParseMeshFaceAssign, if_neg (by omega)]
  · intro h
    rw [ParseMeshFaceAssign, if_pos h]
  · intro h
    rw [ParseMeshTVertAssign, if_neg (by omega)]
  · intro h
    rw [ParseMeshTVertAssign, if_pos h]
  · intro h
    rw [ParseMeshCVertAssign, if_neg (by omega)]
  · intro h
    rw [ParseMeshCVertAssign, if_pos h]
  · intro hne hlt
    rw [ParseMeshBoneVertexAssign, if_neg (by simpa using hne)]
    simp only [if_neg (by omega : ¬ bv.length ≤ i)]
  · intro hne hle
    rw [ParseMeshBoneVertexAssign, if_neg (by simpa using hne)]
    simp only [if_pos hle]

/-- Witness for C3: an in-bounds vertex write at slot 1 of 2, an out-of-bounds
vertex write at index 7, and the clamped out-of-bounds bone-vertex write. -/
theorem ase_indexed_assignment_spec_witness :
    ParseMeshVertexAssign 2 [((0 : ℚ), (0 : ℚ), (0 : ℚ)), (0, 0, 0)] 1 (5, 0, 0) =
        ([(0, 0, 0), (5, 0, 0)], 0) ∧
    ParseMeshVertexAssign 2 [((0 : ℚ), (0 : ℚ), (0 : ℚ)), (0, 0, 0)] 7 (5, 0, 0) =
        ([(0, 0, 0), (0, 0, 0)], 1) ∧
    ParseMeshBoneVertexAssign [[], []] 5 [((0 : Int), (1 : ℚ))] = ([[], [(0, 1)]], 1) := by
  refine ⟨?_, ?_, ?_⟩
  · exact ((ase_indexed_assignment_spec 2 1 0 [(0, 0, 0), (0, 0, 0)] (5, 0, 0)
      [] ⟨0, (0, 0, 0), 0, 0⟩ [] (0, 0, 0, 0) [] []).1 (by omega)).trans (by decide)
  · exact ((ase_indexed_assignment_spec 2 7 0 [(0, 0, 0), (0, 0, 0)] (5, 0, 0)
      [] ⟨0, (0, 0, 0), 0, 0⟩ [] (0, 0, 0, 0) [] []).2.2.2.2.1 (by omega)).trans (by decide)
  · exact ((ase_indexed_assignment_spec 2 5 0 [] (0, 0, 0)
      [] ⟨0, (0, 0, 0), 0, 0⟩ [] (0, 0, 0, 0) [[], []]
      [((0 : Int), (1 : ℚ))]).2.2.2.2.2.2.2.2.2.2.2.2 (by decide) (by decide)).trans (by decide)
